import Mathlib

/-!
Verification of `flathunter/gpt_formatter.py` (class `GPTExposeFormatter`).

The Python module is shallowly embedded below.  Python values that can occur
in JSON payloads / parsed JSON responses are modelled by the inductive `Json`
(numbers restricted to integers, which covers every value the claims touch;
the sampling temperature is carried opaquely as a `Json` value).  The network
is an explicit parameter `net : HttpRequest → NetResult`; `format` returns a
trace recording the result, the list of HTTP requests issued, and the list of
warning messages logged, so that "no network call" and "single warning" are
directly statable.  Exceptions that escape `format` (anything that is not a
`requests.RequestException`) are modelled by `Except PyError`.
-/

/-- JSON-serialisable Python values (dict, list, str, int, bool, None). -/
inductive Json where
  | null : Json
  | bool (b : Bool) : Json
  | num (n : Int) : Json
  | str (s : String) : Json
  | arr (xs : List Json) : Json
  | obj (fields : List (String × Json)) : Json


/-- Python exceptions other than `requests.RequestException`; these are not
caught by `format` and propagate to the caller. -/
inductive PyError where
  | indexError : PyError
  | keyError : PyError
  | typeError : PyError
  | attributeError : PyError


/-- Hex digit used by the JSON string escaper. -/
def hexDigit (n : Nat) : Char :=
  if n < 10 then Char.ofNat (48 + n) else Char.ofNat (87 + n)

/-- Escaping of one character as done by `json.dumps(..., ensure_ascii=False)`:
only the quote, the backslash and control characters are escaped; non-ASCII
characters pass through verbatim. -/
def jsonEscapeChar (c : Char) : String :=
  if c = '"' then "\\\""
  else if c = '\\' then "\\\\"
  else if c = '\n' then "\\n"
  else if c = '\t' then "\\t"
  else if c = '\r' then "\\r"
  else if c = '\x08' then "\\b"
  else if c = '\x0c' then "\\f"
  else if c.toNat < 32 then
    "\\u00" ++ String.mk [hexDigit (c.toNat / 16), hexDigit (c.toNat % 16)]
  else String.singleton c

/-- Escaped body of a JSON string literal. -/
def jsonEscape (s : String) : String :=
  String.join (s.data.map jsonEscapeChar)

mutual

/-- `json.dumps(v, ensure_ascii=False)` with the default separators
`", "` and `": "`. -/
def Json.dumps : Json → String
  | .null => "null"
  | .bool true => "true"
  | .bool false => "false"
  | .num n => toString n
  | .str s => "\"" ++ jsonEscape s ++ "\""
  | .arr xs => "[" ++ Json.dumpsList xs ++ "]"
  | .obj fs => "\x7b" ++ Json.dumpsFields fs ++ "\x7d"

/-- Comma-separated serialisation of the elements of a JSON array. -/
def Json.dumpsList : List Json → String
  | [] => ""
  | [x] => Json.dumps x
  | x :: y :: rest => Json.dumps x ++ ", " ++ Json.dumpsList (y :: rest)

/-- Comma-separated serialisation of the fields of a JSON object. -/
def Json.dumpsFields : List (String × Json) → String
  | [] => ""
  | [(k, v)] => "\"" ++ jsonEscape k ++ "\": " ++ Json.dumps v
  | (k, v) :: f :: rest =>
      "\"" ++ jsonEscape k ++ "\": " ++ Json.dumps v ++ ", " ++ Json.dumpsFields (f :: rest)

end

/-- Python truthiness (`bool(v)`) of a JSON value. -/
def pyTruthy : Json → Bool
  | .null => false
  | .bool b => b
  | .num n => n ≠ 0
  | .str s => s ≠ ""
  | .arr xs => !xs.isEmpty
  | .obj fs => !fs.isEmpty

/-- Python `d.get(key, default)`: returns the stored value (even if `None`)
when the key is present, the default otherwise; raises `AttributeError` when
the receiver is not a dict. -/
def pyGet (v : Json) (key : String) (default : Json) : Except PyError Json :=
  match v with
  | .obj fs => .ok ((fs.lookup key).getD default)
  | _ => .error .attributeError

/-- Python subscription `v[0]`: first element of a list (raising `IndexError`
when empty), first character of a string, `KeyError` on a dict parsed from
JSON (its keys are strings, so the integer key `0` is absent), `TypeError`
on anything not subscriptable. -/
def pyIndexZero : Json → Except PyError Json
  | .arr [] => .error .indexError
  | .arr (x :: _) => .ok x
  | .str s =>
      match s.data with
      | [] => .error .indexError
      | c :: _ => .ok (.str (String.singleton c))
  | .obj _ => .error .keyError
  | _ => .error .typeError

/-- Whitespace stripped by Python `str.strip()` (ASCII portion). -/
def pyIsSpace (c : Char) : Bool :=
  c = ' ' || c = '\t' || c = '\n' || c = '\r' || c = '\x0b' || c = '\x0c'

/-- Python `s.strip()`: remove leading and trailing whitespace. -/
def pyStrip (s : String) : String :=
  String.mk (((s.data.dropWhile pyIsSpace).reverse.dropWhile pyIsSpace).reverse)

/-- Python `s.rstrip('/')`: remove every trailing slash. -/
def rstripSlash (s : String) : String :=
  String.mk ((s.data.reverse.dropWhile (fun c => c = '/')).reverse)

/-- The configuration snapshot captured by `GPTExposeFormatter.__init__`
(field names follow the instance attributes of the Python class).  The
temperature and the timeout are opaque numeric pass-through values. -/
structure GPTExposeFormatter where
  _enabled : Bool
  _api_key : String
  _api_base : String
  _model : String
  _temperature : Json
  _system_prompt : String
  _timeout : Json


/-- An outbound HTTP POST as issued by `requests.post` in `format`. -/
structure HttpRequest where
  url : String
  headers : List (String × String)
  payload : Json
  timeout : Json


/-- An HTTP response: status code, raw text body, and the parsed JSON body
(`response.json()`); the claims only concern responses whose body is valid
JSON, so the parsed form is carried directly. -/
structure Response where
  status_code : Nat
  text : String
  body : Json


/-- Behaviour of the network at one request: either a response or a
`requests.RequestException` (connection failure, timeout, DNS failure,
malformed transport response), carrying its message. -/
inductive NetResult where
  | response (r : Response) : NetResult
  | requestException (e : String) : NetResult


/-- Observable outcome of one `format` invocation: the returned string or the
propagated exception, the HTTP requests issued, and the warnings logged. -/
structure FormatTrace where
  result : Except PyError String
  requests : List HttpRequest
  logs : List String


/-- `GPTExposeFormatter._should_use_gpt`. -/
def GPTExposeFormatter._should_use_gpt (self : GPTExposeFormatter) : Bool :=
  self._enabled && !(self._api_key == "") && !(self._model == "")

/-- The fixed Russian instruction text prefixed to the serialised expose in
the user message of `_build_payload`. -/
def userInstruction : String :=
  "Проанализируй следующую информацию об объявлении и составь краткий, " ++
  "чёткий текст на русском языке. Сделай акцент на ключевых выгодах, " ++
  "укажи цену, район/адрес, количество комнат, площадь и добавь ссылку. " ++
  "Ответ должен занимать не более 6-7 предложений.\n\n" ++
  "Данные объявления (JSON):\n"

/-- `GPTExposeFormatter._build_payload`. -/
def GPTExposeFormatter._build_payload (self : GPTExposeFormatter) (expose : Json) : Json :=
  let user_content := userInstruction ++ Json.dumps expose
  let messages : List Json :=
    [ .obj [("role", .str "system"), ("content", .str self._system_prompt)],
      .obj [("role", .str "user"), ("content", .str user_content)] ]
  .obj
    [ ("model", .str self._model),
      ("temperature", self._temperature),
      ("messages", .arr messages) ]

/-- The single HTTP request built inside the `try` block of `format`:
URL `api_base.rstrip('/') + "/chat/completions"`, bearer-token and
content-type headers, JSON payload, configured timeout. -/
def GPTExposeFormatter.builtRequest (self : GPTExposeFormatter) (expose : Json) : HttpRequest :=
  { url := rstripSlash self._api_base ++ "/chat/completions",
    headers :=
      [ ("Authorization", "Bearer " ++ self._api_key),
        ("Content-Type", "application/json") ],
    payload := self._build_payload expose,
    timeout := self._timeout }

/-- The extraction
`data.get("choices", [{}])[0].get("message", {}).get("content")` with
Python's dynamic semantics (a failure is an exception that `format` does not
catch). -/
def extractContent (data : Json) : Except PyError Json :=
  match pyGet data "choices" (.arr [.obj []]) with
  | .error e => .error e
  | .ok choices =>
    match pyIndexZero choices with
    | .error e => .error e
    | .ok first =>
      match pyGet first "message" (.obj []) with
      | .error e => .error e
      | .ok msg => pyGet msg "content" .null

/-- Warning logged for a non-200 status (rendered `logger.warning` format
string with the status code and the response text substituted). -/
def non200Warning (status : Nat) (text : String) : String :=
  "GPT API returned " ++ toString status ++ ": " ++ text

/-- Warning logged when the response lacks usable content. -/
def missingContentWarning : String :=
  "GPT API response missing content, falling back to default message"

/-- Warning logged when `requests.post` raises a `RequestException`. -/
def transportWarning : String :=
  "Error while calling GPT API, falling back to default message"

/-- `GPTExposeFormatter.format`, with the network passed explicitly.  Mirrors
the Python control flow: gate check, request, status check, content
extraction, truthiness check, strip; `requests.RequestException` is caught
and mapped to the fallback, every other exception propagates. -/
def GPTExposeFormatter.format (self : GPTExposeFormatter) (expose : Json)
    (fallback : String) (net : HttpRequest → NetResult) : FormatTrace :=
  if !self._should_use_gpt then
    { result := .ok fallback, requests := [], logs := [] }
  else
    let req := self.builtRequest expose
    match net req with
    | .requestException _ =>
        { result := .ok fallback, requests := [req], logs := [transportWarning] }
    | .response r =>
        if r.status_code ≠ 200 then
          { result := .ok fallback, requests := [req],
            logs := [non200Warning r.status_code r.text] }
        else
          match extractContent r.body with
          | .error e => { result := .error e, requests := [req], logs := [] }
          | .ok message =>
              if !pyTruthy message then
                { result := .ok fallback, requests := [req],
                  logs := [missingContentWarning] }
              else
                match message with
                | .str s => { result := .ok (pyStrip s), requests := [req], logs := [] }
                | _ => { result := .error .attributeError, requests := [req], logs := [] }

/-- `GPTExposeFormatter.enabled`. -/
def GPTExposeFormatter.enabled (self : GPTExposeFormatter) : Bool :=
  self._should_use_gpt

/-! Concrete fixtures used by the witnesses below. -/

/-- A fully configured (gate-passing) formatter instance. -/
def fmtrT : GPTExposeFormatter :=
  { _enabled := true, _api_key := "KEY", _api_base := "https://api.example.com/v1/",
    _model := "gpt-4o-mini", _temperature := Json.num 1,
    _system_prompt := "S", _timeout := Json.num 30 }

/-- The example expose from the spec: `\x7b"price": 1000, "rooms": 2\x7d`. -/
def exposeEx : Json := Json.obj [("price", Json.num 1000), ("rooms", Json.num 2)]

/-- A 200-response body whose `choices[0].message.content` is the given value. -/
def body200 (content : Json) : Json :=
  Json.obj [("choices", Json.arr [Json.obj [("message", Json.obj [("content", content)])]])]

/-- Claim C1: if the usability gate is false (disabled, or empty API key, or
empty model), `format` returns exactly the fallback, issues no HTTP request
and logs nothing. -/
theorem claim1_gate_false_fallback (self : GPTExposeFormatter) (expose : Json)
    (fallback : String) (net : HttpRequest → NetResult)
    (h : self._enabled = false ∨ self._api_key = "" ∨ self._model = "") :
    self.format expose fallback net =
      { result := .ok fallback, requests := [], logs := [] } := by
  have hg : self._should_use_gpt = false := by
    unfold GPTExposeFormatter._should_use_gpt
    rcases h with h | h | h <;> simp [h]
  unfold GPTExposeFormatter.format
  simp [hg]

/-- Witness for C1 at a disabled configuration. -/
theorem claim1_witness :
    (GPTExposeFormatter.mk false "KEY" "https://api.example.com/v1" "gpt-4o-mini"
        (Json.num 1) "S" (Json.num 30)).format exposeEx "FB"
        (fun _ => .requestException "boom") =
      { result := .ok "FB", requests := [], logs := [] } :=
  claim1_gate_false_fallback _ _ _ _ (Or.inl rfl)

/-- Claim C8: `enabled()` is true exactly when the gate holds (enabled flag,
non-empty API key, non-empty model); it is a pure function of the captured
configuration, taking no network argument at all. -/
theorem claim8_enabled_iff_gate (self : GPTExposeFormatter) :
    self.enabled = true ↔
      (self._enabled = true ∧ self._api_key ≠ "" ∧ self._model ≠ "") := by
  unfold GPTExposeFormatter.enabled GPTExposeFormatter._should_use_gpt
  simp [Bool.and_eq_true, and_assoc]

/-- Unfolding of `format` once the gate passes: everything is decided by the
network's answer at the single built request. -/
theorem format_gate_true (self : GPTExposeFormatter) (expose : Json) (fallback : String)
    (net : HttpRequest → NetResult) (hg : self._should_use_gpt = true) :
    self.format expose fallback net =
      (match net (self.builtRequest expose) with
      | .requestException _ =>
          { result := .ok fallback, requests := [self.builtRequest expose],
            logs := [transportWarning] }
      | .response r =>
          if r.status_code ≠ 200 then
            { result := .ok fallback, requests := [self.builtRequest expose],
              logs := [non200Warning r.status_code r.text] }
          else
            match extractContent r.body with
            | .error e =>
                { result := .error e, requests := [self.builtRequest expose], logs := [] }
            | .ok message =>
                if !pyTruthy message then
                  { result := .ok fallback, requests := [self.builtRequest expose],
                    logs := [missingContentWarning] }
                else
                  match message with
                  | .str s =>
                      { result := .ok (pyStrip s), requests := [self.builtRequest expose],
                        logs := [] }
                  | _ =>
                      { result := .error .attributeError,
                        requests := [self.builtRequest expose], logs := [] } :
        FormatTrace) := by
  unfold GPTExposeFormatter.format
  simp [hg]

/-- Claim C2: with the gate true and a 200 response whose
`choices[0].message.content` is a non-empty string `s`, `format` returns `s`
stripped of leading and trailing whitespace. -/
theorem claim2_success_returns_stripped_content (self : GPTExposeFormatter)
    (expose : Json) (fallback : String) (net : HttpRequest → NetResult)
    (t : String) (df : List (String × Json)) (cs : List Json)
    (cf mf : List (String × Json)) (s : String)
    (hg : self._should_use_gpt = true)
    (hnet : net (self.builtRequest expose) = .response ⟨200, t, Json.obj df⟩)
    (hchoices : df.lookup "choices" = some (Json.arr (Json.obj cf :: cs)))
    (hmsg : cf.lookup "message" = some (Json.obj mf))
    (hcontent : mf.lookup "content" = some (Json.str s))
    (hne : s ≠ "") :
    (self.format expose fallback net).result = .ok (pyStrip s) := by
  rw [format_gate_true self expose fallback net hg, hnet]
  simp [extractContent, pyGet, pyIndexZero, hchoices, hmsg, hcontent, pyTruthy, hne]

/-- Witness for C2: the spec's example body yields `"Great flat!"`. -/
theorem claim2_witness :
    (fmtrT.format exposeEx "FB"
        (fun _ => .response ⟨200, "t", body200 (Json.str " Great flat! ")⟩)).result =
      .ok "Great flat!" := by
  exact claim2_success_returns_stripped_content fmtrT exposeEx "FB" _ "t"
    [("choices", Json.arr [Json.obj [("message", Json.obj [("content", Json.str " Great flat! ")])]])]
    [] [("message", Json.obj [("content", Json.str " Great flat! ")])]
    [("content", Json.str " Great flat! ")] " Great flat! "
    rfl rfl rfl rfl rfl (by decide)

/-- Claim C3 (refuted, code bug): on a 200 response with body
`\x7b"choices": []\x7d` the extraction `data.get("choices", [\x7b\x7d])[0]`
finds the key present with an empty list, so indexing raises `IndexError`,
which `except requests.RequestException` does not catch: the exception
propagates to the caller instead of the fallback being returned. -/
theorem claim3_empty_choices_raises_index_error :
    fmtrT.format exposeEx "FB"
        (fun _ => .response ⟨200, "\x7b\"choices\": []\x7d",
          Json.obj [("choices", Json.arr [])]⟩) =
      { result := .error .indexError, requests := [fmtrT.builtRequest exposeEx],
        logs := [] } := rfl

/-- Claim C4: a `requests.RequestException` from the HTTP call is caught,
logged as a warning and mapped to the fallback, while any error outside that
class (here: an exception raised by the content extraction, such as
`AttributeError` on a non-dict body) is not caught and propagates. -/
theorem claim4_transport_caught_others_propagate (self : GPTExposeFormatter)
    (expose : Json) (fallback : String) (net : HttpRequest → NetResult)
    (hg : self._should_use_gpt = true) :
    (∀ e, net (self.builtRequest expose) = .requestException e →
      self.format expose fallback net =
        { result := .ok fallback, requests := [self.builtRequest expose],
          logs := [transportWarning] }) ∧
    (∀ r err, net (self.builtRequest expose) = .response r →
      r.status_code = 200 → extractContent r.body = .error err →
      (self.format expose fallback net).result = .error err) := by
  constructor
  · intro e hnet
    rw [format_gate_true self expose fallback net hg, hnet]
  · intro r err hnet hs hex
    rw [format_gate_true self expose fallback net hg, hnet]
    simp [hs, hex]

/-- Witness for C4: a timeout is absorbed into the fallback with a warning,
while a 200 response whose body is a JSON array (no `.get` attribute) makes
`format` propagate an `AttributeError`. -/
theorem claim4_witness :
    fmtrT.format exposeEx "FB" (fun _ => .requestException "connection timeout") =
      { result := .ok "FB", requests := [fmtrT.builtRequest exposeEx],
        logs := [transportWarning] } ∧
    (fmtrT.format exposeEx "FB" (fun _ => .response ⟨200, "[]", Json.arr []⟩)).result =
      .error .attributeError := by
  refine ⟨(claim4_transport_caught_others_propagate fmtrT exposeEx "FB" _ rfl).1
      "connection timeout" rfl, ?_⟩
  exact (claim4_transport_caught_others_propagate fmtrT exposeEx "FB" _ rfl).2
    ⟨200, "[]", Json.arr []⟩ .attributeError rfl rfl rfl

/-- Claim C5: with the gate true, a response with any status other than 200
yields the fallback, exactly one issued request, and exactly one warning,
rendered from the status code and the response body text. -/
theorem claim5_non200_fallback_single_warning (self : GPTExposeFormatter)
    (expose : Json) (fallback : String) (net : HttpRequest → NetResult)
    (r : Response)
    (hg : self._should_use_gpt = true)
    (hnet : net (self.builtRequest expose) = .response r)
    (hs : r.status_code ≠ 200) :
    self.format expose fallback net =
      { result := .ok fallback, requests := [self.builtRequest expose],
        logs := ["GPT API returned " ++ toString r.status_code ++ ": " ++ r.text] } := by
  rw [format_gate_true self expose fallback net hg, hnet]
  simp [hs, non200Warning]

/-- Witness for C5 at status 500 with body `"oops"`. -/
theorem claim5_witness :
    fmtrT.format exposeEx "FB" (fun _ => .response ⟨500, "oops", Json.obj []⟩) =
      { result := .ok "FB", requests := [fmtrT.builtRequest exposeEx],
        logs := ["GPT API returned 500: oops"] } := by
  exact claim5_non200_fallback_single_warning fmtrT exposeEx "FB" _
    ⟨500, "oops", Json.obj []⟩ rfl rfl (by decide)

/-- Claim C6: the built payload has exactly the top-level fields `model`,
`temperature` and `messages`, with the system message (configured prompt
verbatim) first and the user message second, whose content is the fixed
instruction followed by the JSON serialisation of the expose; the serialiser
keeps non-ASCII characters unescaped. -/
theorem claim6_payload_structure (self : GPTExposeFormatter) (expose : Json) :
    self._build_payload expose =
      Json.obj
        [ ("model", Json.str self._model),
          ("temperature", self._temperature),
          ("messages", Json.arr
            [ Json.obj [("role", Json.str "system"),
                        ("content", Json.str self._system_prompt)],
              Json.obj [("role", Json.str "user"),
                        ("content", Json.str (userInstruction ++ Json.dumps expose))] ]) ] ∧
    Json.dumps exposeEx = "\x7b\"price\": 1000, \"rooms\": 2\x7d" ∧
    Json.dumps (Json.str "Привет, мир") = "\"Привет, мир\"" :=
  ⟨rfl, rfl, rfl⟩

/-- With the gate true, the single request issued is the built one. -/
theorem format_requests_gate_true (self : GPTExposeFormatter) (expose : Json)
    (fallback : String) (net : HttpRequest → NetResult)
    (hg : self._should_use_gpt = true) :
    (self.format expose fallback net).requests = [self.builtRequest expose] := by
  rw [format_gate_true self expose fallback net hg]
  cases net (self.builtRequest expose) with
  | requestException e => rfl
  | response r =>
      by_cases hs : r.status_code = 200
      · simp only [hs, ne_eq, not_true_eq_false, if_false, ite_false]
        cases hex : extractContent r.body with
        | error e => simp
        | ok m =>
            by_cases ht : pyTruthy m
            · cases m <;> simp [ht]
            · simp [ht]
      · simp [hs]

/-- Claim C7: every invocation issues at most one HTTP request, and any
request issued is the POST to `api_base.rstrip('/') + "/chat/completions"`
with the bearer-token and JSON content-type headers, the built payload, and
the configured timeout. -/
theorem claim7_at_most_one_request (self : GPTExposeFormatter) (expose : Json)
    (fallback : String) (net : HttpRequest → NetResult) :
    (self.format expose fallback net).requests = [] ∨
    (self.format expose fallback net).requests =
      [ { url := rstripSlash self._api_base ++ "/chat/completions",
          headers := [("Authorization", "Bearer " ++ self._api_key),
                      ("Content-Type", "application/json")],
          payload := self._build_payload expose,
          timeout := self._timeout } ] := by
  cases hg : self._should_use_gpt
  · left
    unfold GPTExposeFormatter.format
    simp [hg]
  · right
    rw [format_requests_gate_true self expose fallback net hg]
    rfl

/-- Claim C9: `format` is a deterministic function of the configuration, the
arguments and the network's answer at the single built request: two runs
whose network behaviours agree on that request produce identical traces. -/
theorem claim9_deterministic (self : GPTExposeFormatter) (expose : Json)
    (fallback : String) (net1 net2 : HttpRequest → NetResult)
    (h : net1 (self.builtRequest expose) = net2 (self.builtRequest expose)) :
    self.format expose fallback net1 = self.format expose fallback net2 := by
  cases hg : self._should_use_gpt
  · unfold GPTExposeFormatter.format
    simp [hg]
  · rw [format_gate_true self expose fallback net1 hg,
        format_gate_true self expose fallback net2 hg, h]

/-- Witness for C9: two syntactically different network behaviours that agree
at the issued request give the same trace. -/
theorem claim9_witness :
    fmtrT.format exposeEx "FB" (fun _ => .response ⟨500, "oops", Json.obj []⟩) =
      fmtrT.format exposeEx "FB" (fun r =>
        if r.url = "" then .requestException "unreachable"
        else .response ⟨500, "oops", Json.obj []⟩) :=
  claim9_deterministic fmtrT exposeEx "FB" _ _ rfl

/-- Claim C10: a 200 response whose content is a non-empty all-whitespace
string is returned stripped — the empty string, not the fallback; the
fallback is substituted (with the missing-content warning) exactly in the
falsy cases, e.g. content `""` or content `null`. -/
theorem claim10_whitespace_content_not_fallback (self : GPTExposeFormatter)
    (expose : Json) (fallback : String) (net : HttpRequest → NetResult)
    (t s : String)
    (hg : self._should_use_gpt = true) :
    (net (self.builtRequest expose) = .response ⟨200, t, body200 (Json.str s)⟩ →
       s ≠ "" → (self.format expose fallback net).result = .ok (pyStrip s)) ∧
    (net (self.builtRequest expose) = .response ⟨200, t, body200 (Json.str "")⟩ →
       self.format expose fallback net =
         { result := .ok fallback, requests := [self.builtRequest expose],
           logs := [missingContentWarning] }) ∧
    (net (self.builtRequest expose) = .response ⟨200, t, body200 Json.null⟩ →
       self.format expose fallback net =
         { result := .ok fallback, requests := [self.builtRequest expose],
           logs := [missingContentWarning] }) := by
  refine ⟨fun hnet hne => ?_, fun hnet => ?_, fun hnet => ?_⟩
  · rw [format_gate_true self expose fallback net hg, hnet]
    simp [body200, extractContent, pyGet, pyIndexZero, pyTruthy, hne]
  · rw [format_gate_true self expose fallback net hg, hnet]
    simp [body200, extractContent, pyGet, pyIndexZero, pyTruthy]
  · rw [format_gate_true self expose fallback net hg, hnet]
    simp [body200, extractContent, pyGet, pyIndexZero, pyTruthy]

/-- Witness for C10: content `"   "` gives `""` (not the fallback `"FB"`),
while content `""` and content `null` give the fallback. -/
theorem claim10_witness :
    (fmtrT.format exposeEx "FB"
        (fun _ => .response ⟨200, "t", body200 (Json.str "   ")⟩)).result = .ok "" ∧
    (fmtrT.format exposeEx "FB"
        (fun _ => .response ⟨200, "t", body200 (Json.str "")⟩)).result = .ok "FB" ∧
    (fmtrT.format exposeEx "FB"
        (fun _ => .response ⟨200, "t", body200 Json.null⟩)).result = .ok "FB" := by
  refine ⟨(claim10_whitespace_content_not_fallback fmtrT exposeEx "FB" _ "t" "   " rfl).1
      rfl (by decide), ?_, ?_⟩
  · exact congrArg FormatTrace.result
      ((claim10_whitespace_content_not_fallback fmtrT exposeEx "FB" _ "t" "   " rfl).2.1 rfl)
  · exact congrArg FormatTrace.result
      ((claim10_whitespace_content_not_fallback fmtrT exposeEx "FB" _ "t" "   " rfl).2.2 rfl)
